import Mathlib

/-!
Verification of the MindfulSpace wellness-tracker server (Express + PostgreSQL).

The repository ships a primary `server.js` together with alternate server
variants and a `database.sql` schema.  This file gives a shallow embedding of
the data model (the relational tables as lists of rows) and of the request
handlers the claims are about, translated statement by statement from the
JavaScript source and its SQL queries, together with theorems settling the
claims.

Conventions:
* SQL tables are lists of row structures; `SERIAL PRIMARY KEY` ids and
  `CURRENT_TIMESTAMP` values enter as explicit `freshId` / `now` parameters.
* A handler is a function `DB → ... → DB × Except ApiError α` (or a bespoke
  result type): the returned `DB` is the store after the request.
* JavaScript falsiness of request-body strings is modelled by `= ""` and of
  body numbers by `= 0`; an absent optional string body field is `""`.
-/

deriving instance DecidableEq for Except

namespace Mindful

/-- JavaScript `String.prototype.trim()`: the string with leading and
trailing whitespace removed. -/
def jsTrim (s : String) : String :=
  String.mk (((s.data.dropWhile Char.isWhitespace).reverse.dropWhile
    Char.isWhitespace).reverse)

/-- A row of the `users` table (`database.sql` plus the `join_date` column used
by the primary server variant). `password` holds the stored (hashed) password. -/
structure UserRow where
  id : Nat
  email : String
  password : String
  name : String
  age : Option Nat
  gender : Option String
  bio : Option String
  profile_complete : Bool
  join_date : Nat
  created_at : Nat
  updated_at : Nat
deriving DecidableEq, Repr

/-- A row of the `journal_entries` table. -/
structure JournalRow where
  id : Nat
  user_id : Nat
  content : String
  category : Option String
  is_public : Bool
  created_at : Nat
  updated_at : Nat
deriving DecidableEq, Repr

/-- A row of the `mood_entries` table (`UNIQUE(user_id, date)` in the schema). -/
structure MoodRow where
  id : Nat
  user_id : Nat
  mood : String
  emoji : String
  date : String
  created_at : Nat
deriving DecidableEq, Repr

/-- A row of the `gratitude_entries` table. -/
structure GratitudeRow where
  id : Nat
  user_id : Nat
  content : String
  date : String
  created_at : Nat
deriving DecidableEq, Repr

/-- A row of the `friend_requests` table
(`status` is one of the strings pending, accepted, rejected). -/
structure FriendRequestRow where
  id : Nat
  requester_id : Nat
  requested_id : Nat
  status : String
  created_at : Nat
  updated_at : Nat
deriving DecidableEq, Repr

/-- The relational store: the five tables the claims touch. -/
structure DB where
  users : List UserRow
  journal_entries : List JournalRow
  mood_entries : List MoodRow
  gratitude_entries : List GratitudeRow
  friend_requests : List FriendRequestRow
deriving DecidableEq, Repr

/-- The error taxonomy of the handlers, read off the HTTP status codes and
messages: 400 validation, 400 conflict, 404 not found, 401/403 auth,
500 internal. -/
inductive ApiError where
  | validation (msg : String)
  | conflict (msg : String)
  | notFound (msg : String)
  | auth (msg : String)
  | internal
deriving DecidableEq, Repr

/-- A JSON value, for modelling response bodies field by field. -/
inductive JValue where
  | jstr (s : String)
  | jnat (n : Nat)
  | jint (n : Int)
  | jbool (b : Bool)
  | jnull
deriving DecidableEq, Repr

/-- Serialize a nullable integer column. -/
def optNat : Option Nat → JValue
  | some n => JValue.jnat n
  | none => JValue.jnull

/-- Serialize a nullable text column. -/
def optStr : Option String → JValue
  | some s => JValue.jstr s
  | none => JValue.jnull

/-- Modelled from the external bcryptjs library (not part of this repository):
`bcrypt.hash(password, 10)` produces a tagged one-way digest, never the
plaintext itself.  Real bcrypt output is a 60-character string beginning with
the algorithm/cost prefix; the digest computation is abstracted here as a
tagged encoding, which preserves the one property the spec uses: the stored
value is an encoding of the password distinct from the plaintext. -/
def hashPassword (password : String) : String :=
  "$2b$10$" ++ password

/-- Whether a user row with this email exists
(`SELECT id FROM users WHERE email = $1` returning at least one row). -/
def emailExists (db : DB) (email : String) : Bool :=
  db.users.any (fun u => u.email == email)

/-- An error raised by the store itself; `uniqueViolation` is the PostgreSQL
error code 23505 raised when an INSERT breaks a UNIQUE constraint. -/
inductive PgError where
  | uniqueViolation
deriving DecidableEq, Repr

/-- The store-level `INSERT INTO users (email, password, name) VALUES ...`:
the `email UNIQUE` constraint makes the insert fail with error 23505 when a
row with the email is already present; otherwise the row is appended with the
remaining columns at their schema defaults. -/
def insertUser (db : DB) (email hashedPw name : String) (freshId now : Nat) :
    Except PgError (DB × UserRow) :=
  if emailExists db email then Except.error PgError.uniqueViolation
  else
    let u : UserRow :=
      { id := freshId, email := email, password := hashedPw, name := name,
        age := none, gender := none, bio := none, profile_complete := false,
        join_date := now, created_at := now, updated_at := now }
    Except.ok ({ db with users := db.users ++ [u] }, u)

/-- Outcome of `POST /api/register`. -/
inductive RegResult where
  | validationErr (msg : String)
  | conflictErr (msg : String)
  | internalErr
  | created (u : UserRow)
deriving DecidableEq, Repr

/-- Phase-1 outcome of the register handler: an early response, or the hashed
password with which the handler proceeds to the INSERT. -/
inductive RegPhase1 where
  | earlyExit (r : RegResult)
  | proceed (hashedPw : String)
deriving DecidableEq, Repr

/-- The read-only first half of the `POST /api/register` handler: input
validation and the duplicate-email pre-query, up to but not including the
INSERT. -/
def registerPhase1 (db : DB) (email password : String) : RegPhase1 :=
  if email = "" ∨ password = "" then
    RegPhase1.earlyExit (RegResult.validationErr "Email and password are required")
  else if password.length < 6 then
    RegPhase1.earlyExit (RegResult.validationErr "Password must be at least 6 characters long")
  else if emailExists db email then
    RegPhase1.earlyExit (RegResult.conflictErr "User already exists with this email")
  else
    RegPhase1.proceed (hashPassword password)

/-- The second half of the register handler: the INSERT, wrapped in the
handler's catch block, which maps every thrown store error (including the
unique-constraint violation 23505) to the generic 500 response. -/
def registerPhase2 (db : DB) (email hashedPw name : String) (freshId now : Nat) :
    DB × RegResult :=
  match insertUser db email hashedPw name freshId now with
  | Except.ok (db2, u) => (db2, RegResult.created u)
  | Except.error _ => (db, RegResult.internalErr)

/-- The full `POST /api/register` handler run in isolation. -/
def registerHandler (db : DB) (email password name : String) (freshId now : Nat) :
    DB × RegResult :=
  match registerPhase1 db email password with
  | RegPhase1.earlyExit r => (db, r)
  | RegPhase1.proceed h => registerPhase2 db email h name freshId now

/-- Two register requests for the same email run strictly one after the
other: the second request's pre-query sees the first request's insert. -/
def registerTwiceSequential (db : DB) (email p1 n1 p2 n2 : String)
    (id1 t1 id2 t2 : Nat) : DB × RegResult × RegResult :=
  let s1 := registerHandler db email p1 n1 id1 t1
  let s2 := registerHandler s1.1 email p2 n2 id2 t2
  (s2.1, s1.2, s2.2)

/-- The raced interleaving of two register requests for the same email: both
pre-checks (phase 1) read the initial store before either INSERT runs, then
the two INSERTs serialize at the store. -/
def registerRaced (db : DB) (email p1 n1 p2 n2 : String)
    (id1 t1 id2 t2 : Nat) : DB × RegResult × RegResult :=
  match registerPhase1 db email p1, registerPhase1 db email p2 with
  | RegPhase1.proceed h1, RegPhase1.proceed h2 =>
      let s1 := registerPhase2 db email h1 n1 id1 t1
      let s2 := registerPhase2 s1.1 email h2 n2 id2 t2
      (s2.1, s1.2, s2.2)
  | RegPhase1.earlyExit r1, RegPhase1.proceed h2 =>
      let s2 := registerPhase2 db email h2 n2 id2 t2
      (s2.1, r1, s2.2)
  | RegPhase1.proceed h1, RegPhase1.earlyExit r2 =>
      let s1 := registerPhase2 db email h1 n1 id1 t1
      (s1.1, s1.2, r2)
  | RegPhase1.earlyExit r1, RegPhase1.earlyExit r2 => (db, r1, r2)

/-- The user object in the `POST /api/register` 201 response body
(id, email, name, profileComplete). -/
def registerResponseUser (u : UserRow) : List (String × JValue) :=
  [("id", JValue.jnat u.id), ("email", JValue.jstr u.email),
   ("name", JValue.jstr u.name), ("profileComplete", JValue.jbool u.profile_complete)]

/-- The user object in the `POST /api/login` 200 response body. -/
def loginResponseUser (u : UserRow) : List (String × JValue) :=
  [("id", JValue.jnat u.id), ("email", JValue.jstr u.email),
   ("name", JValue.jstr u.name), ("age", optNat u.age),
   ("gender", optStr u.gender), ("bio", optStr u.bio),
   ("profileComplete", JValue.jbool u.profile_complete),
   ("joinDate", JValue.jnat u.join_date)]

/-- The row returned by `GET /api/profile` and by the `RETURNING` list of
`PUT /api/profile`
(`SELECT id, email, name, age, gender, bio, profile_complete, join_date`). -/
def profileResponse (u : UserRow) : List (String × JValue) :=
  [("id", JValue.jnat u.id), ("email", JValue.jstr u.email),
   ("name", JValue.jstr u.name), ("age", optNat u.age),
   ("gender", optStr u.gender), ("bio", optStr u.bio),
   ("profile_complete", JValue.jbool u.profile_complete),
   ("join_date", JValue.jnat u.join_date)]

/-- One row of the `GET /api/users` listing
(`SELECT id, name, age, gender, bio, join_date`). -/
def usersListingRow (u : UserRow) : List (String × JValue) :=
  [("id", JValue.jnat u.id), ("name", JValue.jstr u.name),
   ("age", optNat u.age), ("gender", optStr u.gender),
   ("bio", optStr u.bio), ("join_date", JValue.jnat u.join_date)]

/-- The `PUT /api/profile` handler: validates that name, age and gender are
truthy, then
`UPDATE users SET name, age, gender, bio, profile_complete = true, updated_at
WHERE id = caller RETURNING ...`; zero updated rows is a 404. -/
def updateProfileHandler (db : DB) (caller : Nat) (name : String) (age : Nat)
    (gender bio : String) (now : Nat) :
    DB × Except ApiError (List (String × JValue)) :=
  if name = "" ∨ age = 0 ∨ gender = "" then
    (db, Except.error (ApiError.validation "Name, age, and gender are required"))
  else
    match db.users.filter (fun u => u.id == caller) with
    | [] => (db, Except.error (ApiError.notFound "User not found"))
    | u :: _ =>
        let u2 : UserRow :=
          { u with name := name, age := some age, gender := some gender,
                   bio := some bio, profile_complete := true, updated_at := now }
        ({ db with users := db.users.map (fun x =>
            if x.id == caller then
              { x with name := name, age := some age, gender := some gender,
                       bio := some bio, profile_complete := true, updated_at := now }
            else x) },
         Except.ok (profileResponse u2))

/-- The `POST /api/journal` handler: rejects missing or whitespace-only
content before the store access, otherwise inserts the trimmed content. -/
def postJournal (db : DB) (caller : Nat) (content : String)
    (category : Option String) (isPublic : Bool) (freshId now : Nat) :
    DB × Except ApiError JournalRow :=
  if jsTrim content = "" then
    (db, Except.error (ApiError.validation "Journal content is required"))
  else
    let r : JournalRow :=
      { id := freshId, user_id := caller, content := jsTrim content,
        category := category, is_public := isPublic,
        created_at := now, updated_at := now }
    ({ db with journal_entries := db.journal_entries ++ [r] }, Except.ok r)

/-- The `DELETE /api/journal/:id` handler:
`DELETE FROM journal_entries WHERE id = $1 AND user_id = $2 RETURNING *`;
zero deleted rows is a 404 and the store is untouched. -/
def deleteJournalHandler (db : DB) (caller jid : Nat) :
    DB × Except ApiError String :=
  match db.journal_entries.filter (fun r => r.id == jid && r.user_id == caller) with
  | [] => (db, Except.error (ApiError.notFound "Journal entry not found"))
  | _ :: _ =>
      ({ db with journal_entries :=
          db.journal_entries.filter (fun r => !(r.id == jid && r.user_id == caller)) },
       Except.ok "Journal entry deleted successfully")

/-- Newest-first comparison on journal rows (`ORDER BY created_at DESC`). -/
def byNewest (a b : JournalRow) : Bool :=
  decide (b.created_at ≤ a.created_at)

/-- The shared SELECT of both public-journal handlers:
`WHERE is_public = true ORDER BY created_at DESC`. -/
def publicEntriesSorted (db : DB) : List JournalRow :=
  (db.journal_entries.filter (fun r => r.is_public)).mergeSort byNewest

/-- `GET /api/journal/public` in the primary server variant: the public
SELECT with `LIMIT 50`. -/
def getPublicJournalPrimary (db : DB) : List JournalRow :=
  (publicEntriesSorted db).take 50

/-- `GET /api/journal/public` in the alternate server variant: the same
SELECT without any LIMIT clause. -/
def getPublicJournalVariant (db : DB) : List JournalRow :=
  publicEntriesSorted db

/-- The conflict key of the mood upsert: the row matches the caller and the
calendar date (`ON CONFLICT (user_id, date)`). -/
def moodKey (caller : Nat) (date : String) (r : MoodRow) : Bool :=
  r.user_id == caller && r.date == date

/-- The `POST /api/mood` handler:
`INSERT ... ON CONFLICT (user_id, date) DO UPDATE SET mood, emoji,
created_at RETURNING *`, after validating that mood, emoji and date are
truthy. -/
def postMood (db : DB) (caller : Nat) (mood emoji date : String)
    (freshId now : Nat) : DB × Except ApiError MoodRow :=
  if mood = "" ∨ emoji = "" ∨ date = "" then
    (db, Except.error (ApiError.validation "Mood, emoji, and date are required"))
  else
    match db.mood_entries.find? (moodKey caller date) with
    | some r =>
        ({ db with mood_entries := db.mood_entries.map (fun x =>
            if moodKey caller date x then
              { x with mood := mood, emoji := emoji, created_at := now }
            else x) },
         Except.ok { r with mood := mood, emoji := emoji, created_at := now })
    | none =>
        let r : MoodRow :=
          { id := freshId, user_id := caller, mood := mood, emoji := emoji,
            date := date, created_at := now }
        ({ db with mood_entries := db.mood_entries ++ [r] }, Except.ok r)

/-- A sequence of mood submissions by one user for one date; each element is
(mood, emoji, freshId, now). -/
def submitMoodSeq (db : DB) (caller : Nat) (date : String) :
    List (String × String × Nat × Nat) → DB
  | [] => db
  | (m, e, fid, now) :: rest =>
      submitMoodSeq (postMood db caller m e date fid now).1 caller date rest

/-- The user-visible payload of a mood row: its mood label and emoji. -/
def moodData (r : MoodRow) : String × String :=
  (r.mood, r.emoji)

/-- The `POST /api/gratitude` handler: validates that content and date are
truthy (a whitespace-only content string is truthy and passes), then inserts
the trimmed content. -/
def postGratitude (db : DB) (caller : Nat) (content date : String)
    (freshId now : Nat) : DB × Except ApiError GratitudeRow :=
  if content = "" ∨ date = "" then
    (db, Except.error (ApiError.validation "Content and date are required"))
  else
    let r : GratitudeRow :=
      { id := freshId, user_id := caller, content := jsTrim content,
        date := date, created_at := now }
    ({ db with gratitude_entries := db.gratitude_entries ++ [r] }, Except.ok r)

/-- The `PUT /api/friends/request/:id` handler: rejects a status other than
accepted or rejected, then
`UPDATE friend_requests SET status, updated_at WHERE id = $2 AND
requested_id = $3 RETURNING *`; zero updated rows is a 404.  Note that the
WHERE clause does not test the current status. -/
def putFriendRequest (db : DB) (caller rid : Nat) (status : String) (now : Nat) :
    DB × Except ApiError FriendRequestRow :=
  if status = "accepted" ∨ status = "rejected" then
    match db.friend_requests.filter (fun r => r.id == rid && r.requested_id == caller) with
    | [] => (db, Except.error (ApiError.notFound "Friend request not found"))
    | r :: _ =>
        ({ db with friend_requests := db.friend_requests.map (fun x =>
            if x.id == rid && x.requested_id == caller then
              { x with status := status, updated_at := now }
            else x) },
         Except.ok { r with status := status, updated_at := now })
  else (db, Except.error (ApiError.validation "Invalid status"))

/-- The `GET /api/stats` response body of the primary server variant. -/
structure StatsResponse where
  journalCount : Nat
  moodCount : Nat
  gratitudeCount : Nat
  daysActive : Int
deriving DecidableEq, Repr

/-- The `GET /api/stats` handler: three COUNT queries scoped to the caller,
then `daysActive = Math.floor((today - joinDate) / 86400000) + 1` (floor
division toward minus infinity, as JavaScript Math.floor).  A missing user
row crashes reading `rows[0]` and is caught as a 500. -/
def statsHandler (db : DB) (caller : Nat) (now : Nat) :
    DB × Except ApiError StatsResponse :=
  let jc := (db.journal_entries.filter (fun r => r.user_id == caller)).length
  let mc := (db.mood_entries.filter (fun r => r.user_id == caller)).length
  let gc := (db.gratitude_entries.filter (fun r => r.user_id == caller)).length
  match db.users.find? (fun u => u.id == caller) with
  | none => (db, Except.error ApiError.internal)
  | some u =>
      (db, Except.ok
        { journalCount := jc, moodCount := mc, gratitudeCount := gc,
          daysActive := Int.fdiv ((now : Int) - (u.join_date : Int)) 86400000 + 1 })

/-- Follows the spec wording for the stats aggregation: the inclusive
day-count between the join date and the current time. -/
def specDaysActive (join now : Nat) : Nat :=
  (now - join) / 86400000 + 1

/-- The empty store. -/
def emptyDB : DB :=
  { users := [], journal_entries := [], mood_entries := [],
    gratitude_entries := [], friend_requests := [] }

/-- A store holding a single friend request from user 1 to user 2 that has
already been accepted. -/
def frAcceptedDB : DB :=
  { emptyDB with friend_requests :=
      [{ id := 1, requester_id := 1, requested_id := 2, status := "accepted",
         created_at := 0, updated_at := 0 }] }

/-- A store holding 51 public journal entries (distinct ids and creation
times). -/
def db51 : DB :=
  { emptyDB with journal_entries :=
      (List.range 51).map (fun i =>
        { id := i, user_id := 1, content := "x", category := none,
          is_public := true, created_at := i, updated_at := i }) }

/-- A store holding one user (id 1) and one journal entry owned by that
user, for concrete witness evaluations. -/
def witnessDB : DB :=
  { emptyDB with
      users :=
        [{ id := 1, email := "a@x.com", password := hashPassword "secret1",
           name := "A", age := none, gender := none, bio := none,
           profile_complete := false, join_date := 0, created_at := 0,
           updated_at := 0 }],
      journal_entries :=
        [{ id := 7, user_id := 1, content := "hello", category := none,
           is_public := false, created_at := 3, updated_at := 3 }],
      friend_requests :=
        [{ id := 4, requester_id := 1, requested_id := 9, status := "pending",
           created_at := 0, updated_at := 0 }] }

/-- C1: duplicate registration.  When the two requests run sequentially the
second one is answered with the ConflictError response, and in every
interleaving at most one registration succeeds (the store keeps a single row
for the email).  However, in the raced interleaving in which both pre-checks
read the store before either INSERT, the loser's unique-constraint violation
is swallowed by the handler's catch-all and surfaced as the generic 500
internal error, not as the ConflictError the claim requires. -/
theorem c1_register_duplicate_race :
    (registerTwiceSequential emptyDB "a@x.com" "secret1" "A" "secret2" "B" 1 0 2 1).2.2
        = RegResult.conflictErr "User already exists with this email"
    ∧ (registerRaced emptyDB "a@x.com" "secret1" "A" "secret2" "B" 1 0 2 1).2.2
        = RegResult.internalErr
    ∧ (registerRaced emptyDB "a@x.com" "secret1" "A" "secret2" "B" 1 0 2 1).2.2
        ≠ RegResult.conflictErr "User already exists with this email"
    ∧ ((registerRaced emptyDB "a@x.com" "secret1" "A" "secret2" "B" 1 0 2 1).1.users.filter
        (fun u => u.email == "a@x.com")).length = 1 := by
  decide

/-- C2 counterexample: accepted is not a terminal status.  On a store whose
only friend request is already accepted, the requested party's update to
rejected succeeds and changes the stored status, refuting the claim that no
operation changes the status of an accepted row. -/
theorem c2_accepted_not_terminal :
    frAcceptedDB.friend_requests.map (fun r => r.status) = ["accepted"]
    ∧ ((putFriendRequest frAcceptedDB 2 1 "rejected" 5).1.friend_requests.map
        (fun r => r.status)) = ["rejected"]
    ∧ (putFriendRequest frAcceptedDB 2 1 "rejected" 5).2
        = Except.ok { id := 1, requester_id := 1, requested_id := 2,
                      status := "rejected", created_at := 0, updated_at := 5 } := by
  decide

/-- C2 (amended): the status-update operation only ever sets a row's status
to accepted or rejected, and only on rows addressed to the caller as the
requested party; every other row is returned unchanged.  The current status
is not consulted, so accepted and rejected are not terminal. -/
theorem c2_transitions_by_requested_party (db : DB) (caller rid : Nat)
    (status : String) (now : Nat) :
    List.Forall₂ (fun r r2 => r2 = r ∨
        (r.requested_id = caller ∧ r.id = rid ∧
         (status = "accepted" ∨ status = "rejected") ∧
         r2 = { r with status := status, updated_at := now }))
      db.friend_requests
      (putFriendRequest db caller rid status now).1.friend_requests := by
  by_cases hval : status = "accepted" ∨ status = "rejected"
  · rw [putFriendRequest, if_pos hval]
    cases hfil : db.friend_requests.filter (fun r => r.id == rid && r.requested_id == caller) with
    | nil =>
        exact List.forall₂_same.mpr (fun a _ => Or.inl rfl)
    | cons r rest =>
        rw [List.forall₂_map_right_iff]
        refine List.forall₂_same.mpr ?_
        intro x _
        by_cases hk : (x.id == rid && x.requested_id == caller) = true
        · simp only [Bool.and_eq_true, beq_iff_eq] at hk
          right
          refine ⟨hk.2, hk.1, hval, ?_⟩
          simp [hk.1, hk.2]
        · left
          simp [hk]
  · rw [putFriendRequest, if_neg hval]
    exact List.forall₂_same.mpr (fun a _ => Or.inl rfl)

/-- C4 counterexample: a gratitude entry whose content is whitespace-only
passes the gratitude validation (which only tests truthiness of content and
date) and a row with empty trimmed content is inserted into the store. -/
theorem c4_gratitude_whitespace_row :
    (postGratitude emptyDB 1 "   " "2024-01-01" 1 0).1.gratitude_entries
      = [{ id := 1, user_id := 1, content := "", date := "2024-01-01",
           created_at := 0 }]
    ∧ (postGratitude emptyDB 1 "   " "2024-01-01" 1 0).2
      = Except.ok { id := 1, user_id := 1, content := "", date := "2024-01-01",
                    created_at := 0 } := by
  constructor <;> rfl

/-- C4 (amended): journal creation rejects empty or whitespace-only content
with the ValidationError response before any store access; gratitude
creation rejects only missing (empty-string) content or date before any
store access, so whitespace-only gratitude content is not rejected. -/
theorem c4_validation_before_store :
    (∀ (db : DB) (caller : Nat) (content : String) (category : Option String)
        (isPublic : Bool) (fid now : Nat), jsTrim content = "" →
      postJournal db caller content category isPublic fid now
        = (db, Except.error (ApiError.validation "Journal content is required")))
    ∧ (∀ (db : DB) (caller : Nat) (content date : String) (fid now : Nat),
        content = "" ∨ date = "" →
      postGratitude db caller content date fid now
        = (db, Except.error (ApiError.validation "Content and date are required"))) := by
  constructor
  · intro db caller content category isPublic fid now h
    rw [postJournal, if_pos h]
  · intro db caller content date fid now h
    rw [postGratitude, if_pos h]

/-- C4 witness: the amended validation theorem evaluated at whitespace-only
journal content and at empty gratitude content. -/
theorem c4_validation_before_store_witness :
    postJournal emptyDB 1 "   " none false 1 0
      = (emptyDB, Except.error (ApiError.validation "Journal content is required"))
    ∧ postGratitude emptyDB 1 "" "2024-01-01" 1 0
      = (emptyDB, Except.error (ApiError.validation "Content and date are required")) :=
  ⟨c4_validation_before_store.1 emptyDB 1 "   " none false 1 0 (by decide),
   c4_validation_before_store.2 emptyDB 1 "" "2024-01-01" 1 0 (Or.inl rfl)⟩

/-- C5: deleting a journal entry owned by another user fails with the
NotFoundError response (the same response an entirely missing entry would
produce) and leaves the store unchanged: the DELETE predicate requires both
the row id and the caller's user id, and the ids are unique (primary key),
so no row matches. -/
theorem c5_delete_foreign_journal (db : DB) (entry : JournalRow) (caller : Nat)
    (hmem : entry ∈ db.journal_entries) (howner : caller ≠ entry.user_id)
    (hids : db.journal_entries.Pairwise (fun a b => a.id ≠ b.id)) :
    deleteJournalHandler db caller entry.id
      = (db, Except.error (ApiError.notFound "Journal entry not found")) := by
  have hnil : db.journal_entries.filter
      (fun r => r.id == entry.id && r.user_id == caller) = [] := by
    refine List.filter_eq_nil_iff.mpr ?_
    intro r hr hcond
    simp only [Bool.and_eq_true, beq_iff_eq] at hcond
    obtain ⟨hid, huser⟩ := hcond
    by_cases hre : r = entry
    · apply howner
      rw [← huser, hre]
    · exact (List.Pairwise.forall (fun _ _ h => Ne.symm h) hids hr hmem hre) hid
  unfold deleteJournalHandler
  rw [hnil]

/-- C5 witness: user 2 attempts to delete journal entry 7, which belongs to
user 1; the request is answered 404 and the store is untouched. -/
theorem c5_delete_foreign_journal_witness :
    deleteJournalHandler witnessDB 2 7
      = (witnessDB, Except.error (ApiError.notFound "Journal entry not found")) :=
  c5_delete_foreign_journal witnessDB
    { id := 7, user_id := 1, content := "hello", category := none,
      is_public := false, created_at := 3, updated_at := 3 } 2
    (by decide) (by decide) (by decide)

/-- C6: a status update (to accepted or rejected) of a friend request by any
caller other than the requested party — the requester included — fails with
the NotFoundError response and leaves the store, hence the request's status,
unchanged: the UPDATE predicate requires requested_id to equal the caller,
and the request ids are unique (primary key). -/
theorem c6_update_by_non_requested_party (db : DB) (r : FriendRequestRow)
    (caller : Nat) (status : String) (now : Nat)
    (hmem : r ∈ db.friend_requests) (hcaller : caller ≠ r.requested_id)
    (hids : db.friend_requests.Pairwise (fun a b => a.id ≠ b.id))
    (hstatus : status = "accepted" ∨ status = "rejected") :
    putFriendRequest db caller r.id status now
      = (db, Except.error (ApiError.notFound "Friend request not found")) := by
  have hnil : db.friend_requests.filter
      (fun x => x.id == r.id && x.requested_id == caller) = [] := by
    refine List.filter_eq_nil_iff.mpr ?_
    intro x hx hcond
    simp only [Bool.and_eq_true, beq_iff_eq] at hcond
    obtain ⟨hid, hreq⟩ := hcond
    by_cases hxr : x = r
    · apply hcaller
      rw [← hreq, hxr]
    · exact (List.Pairwise.forall (fun _ _ h => Ne.symm h) hids hx hmem hxr) hid
  unfold putFriendRequest
  rw [if_pos hstatus, hnil]

/-- C6 witness: user 1 is the requester of pending friend request 4
(addressed to user 9); accepting it as user 1 is answered 404 and the store
is untouched. -/
theorem c6_update_by_non_requested_party_witness :
    putFriendRequest witnessDB 1 4 "accepted" 8
      = (witnessDB, Except.error (ApiError.notFound "Friend request not found")) :=
  c6_update_by_non_requested_party witnessDB
    { id := 4, requester_id := 1, requested_id := 9, status := "pending",
      created_at := 0, updated_at := 0 } 1 "accepted" 8
    (by decide) (by decide) (by decide) (Or.inl rfl)

/-- Every row produced by the shared public-journal SELECT is a public row of
the store. -/
theorem publicEntriesSorted_mem {db : DB} {r : JournalRow}
    (h : r ∈ publicEntriesSorted db) :
    r ∈ db.journal_entries ∧ r.is_public = true := by
  have := List.mem_mergeSort.mp h
  exact And.imp_right (fun hp => hp) (List.mem_filter.mp this)

/-- The shared public-journal SELECT is ordered newest first. -/
theorem publicEntriesSorted_pairwise (db : DB) :
    (publicEntriesSorted db).Pairwise (fun a b => b.created_at ≤ a.created_at) := by
  have htrans : ∀ a b c : JournalRow, byNewest a b → byNewest b c → byNewest a c := by
    intro a b c hab hbc
    simp only [byNewest, decide_eq_true_eq] at *
    omega
  have htotal : ∀ a b : JournalRow, byNewest a b || byNewest b a := by
    intro a b
    simp only [byNewest, Bool.or_eq_true, decide_eq_true_eq]
    omega
  have h := List.sorted_mergeSort htrans htotal
    (db.journal_entries.filter (fun r => r.is_public))
  exact h.imp (fun hb => by simpa [byNewest] using hb)

/-- C7 counterexample: the alternate public-journal handler has no LIMIT
clause; on a store with 51 public entries its listing has 51 rows, refuting
the universal 50-row bound. -/
theorem c7_variant_exceeds_50 :
    ¬ ((getPublicJournalVariant db51).length ≤ 50) := by
  have h : (getPublicJournalVariant db51).length = 51 := by
    simp only [getPublicJournalVariant, publicEntriesSorted, List.length_mergeSort]
    decide
  omega

/-- C7 (amended): the primary public-journal handler returns only rows
flagged public, drawn from the store, ordered by creation time descending,
and at most 50 of them; the alternate variant handler returns the same rows
in the same order but without the LIMIT, so its row count is the full count
of public entries and can exceed 50. -/
theorem c7_public_listing (db : DB) :
    ((getPublicJournalPrimary db).all (fun r => r.is_public)) = true
    ∧ (getPublicJournalPrimary db).Pairwise (fun a b => b.created_at ≤ a.created_at)
    ∧ (getPublicJournalPrimary db).length ≤ 50
    ∧ getPublicJournalPrimary db ⊆ db.journal_entries
    ∧ ((getPublicJournalVariant db).all (fun r => r.is_public)) = true
    ∧ (getPublicJournalVariant db).Pairwise (fun a b => b.created_at ≤ a.created_at)
    ∧ (getPublicJournalVariant db).length
        = (db.journal_entries.filter (fun r => r.is_public)).length := by
  have hsub : getPublicJournalPrimary db ⊆ publicEntriesSorted db :=
    (List.take_sublist 50 (publicEntriesSorted db)).subset
  refine ⟨?_, ?_, ?_, ?_, ?_, ?_, ?_⟩
  · exact List.all_eq_true.mpr (fun r hr => (publicEntriesSorted_mem (hsub hr)).2)
  · exact List.Pairwise.sublist (List.take_sublist 50 (publicEntriesSorted db))
      (publicEntriesSorted_pairwise db)
  · rw [getPublicJournalPrimary, List.length_take]
    exact min_le_left _ _
  · exact fun r hr => (publicEntriesSorted_mem (hsub hr)).1
  · exact List.all_eq_true.mpr (fun r hr => (publicEntriesSorted_mem hr).2)
  · exact publicEntriesSorted_pairwise db
  · exact List.length_mergeSort _

/-- One valid mood submission leaves exactly one row for the caller and
date — the freshly inserted row, or the conflicting row updated in place —
provided the store respects the UNIQUE(user_id, date) constraint (at most
one matching row beforehand). -/
theorem postMood_key_filter (db : DB) (caller : Nat) (m e d : String)
    (fid now : Nat) (hm : m ≠ "") (he : e ≠ "") (hd : d ≠ "")
    (hlen : (db.mood_entries.filter (moodKey caller d)).length ≤ 1) :
    ∃ i, ((postMood db caller m e d fid now).1.mood_entries.filter (moodKey caller d))
      = [{ id := i, user_id := caller, mood := m, emoji := e, date := d,
           created_at := now }] := by
  have hvalid : ¬ (m = "" ∨ e = "" ∨ d = "") := by simp [hm, he, hd]
  unfold postMood
  rw [if_neg hvalid]
  cases hfind : db.mood_entries.find? (moodKey caller d) with
  | none =>
      have hnil : db.mood_entries.filter (moodKey caller d) = [] :=
        List.filter_eq_nil_iff.mpr (List.find?_eq_none.mp hfind)
      refine ⟨fid, ?_⟩
      simp [List.filter_append, hnil, moodKey]
  | some r0 =>
      have hkey : moodKey caller d r0 = true := List.find?_some hfind
      have hmem0 : r0 ∈ db.mood_entries := List.mem_of_find?_eq_some hfind
      have hcomm : (db.mood_entries.map (fun x =>
            if moodKey caller d x then
              { x with mood := m, emoji := e, created_at := now }
            else x)).filter (moodKey caller d)
          = (db.mood_entries.filter (moodKey caller d)).map (fun x =>
            if moodKey caller d x then
              { x with mood := m, emoji := e, created_at := now }
            else x) := by
        rw [List.filter_map]
        congr 1
        apply List.filter_congr
        intro a _
        by_cases hk : moodKey caller d a = true
        · have hk2 := hk
          simp only [moodKey, Bool.and_eq_true, beq_iff_eq] at hk2
          simp [Function.comp, moodKey, hk2.1, hk2.2]
        · simp [Function.comp, hk]
      have hfl : db.mood_entries.filter (moodKey caller d) = [r0] := by
        have hmemf : r0 ∈ db.mood_entries.filter (moodKey caller d) :=
          List.mem_filter.mpr ⟨hmem0, hkey⟩
        rcases hx : db.mood_entries.filter (moodKey caller d) with _ | ⟨a, l⟩
        · rw [hx] at hmemf
          exact absurd hmemf (List.not_mem_nil r0)
        · rw [hx] at hmemf hlen
          have hl : l = [] := by
            cases l with
            | nil => rfl
            | cons b lb => simp at hlen
          subst hl
          have := List.mem_singleton.mp hmemf
          rw [this]
      refine ⟨r0.id, ?_⟩
      simp only []
      rw [hcomm, hfl]
      simp only [List.map_cons, List.map_nil, if_pos hkey]
      simp only [moodKey, Bool.and_eq_true, beq_iff_eq] at hkey
      obtain ⟨hu, hdt⟩ := hkey
      cases r0
      simp_all

/-- After any nonempty sequence of valid mood submissions for one
(user, date), the store holds exactly one matching row and it carries the
last submission's mood, emoji and timestamp. -/
theorem submitMoodSeq_filter (caller : Nat) (d : String) (m e : String)
    (fid now : Nat) (hd : d ≠ "") (hm : m ≠ "") (he : e ≠ "") :
    ∀ (subs : List (String × String × Nat × Nat)) (db : DB),
      (∀ s ∈ subs, s.1 ≠ "" ∧ s.2.1 ≠ "") →
      (db.mood_entries.filter (moodKey caller d)).length ≤ 1 →
      ∃ i, ((submitMoodSeq db caller d (subs ++ [(m, e, fid, now)])).mood_entries.filter
          (moodKey caller d))
        = [{ id := i, user_id := caller, mood := m, emoji := e, date := d,
             created_at := now }] := by
  intro subs
  induction subs with
  | nil =>
      intro db _ hlen
      have h := postMood_key_filter db caller m e d fid now hm he hd hlen
      simpa [submitMoodSeq] using h
  | cons s rest ih =>
      intro db hsubs hlen
      obtain ⟨m1, e1, fid1, now1⟩ := s
      have hv := hsubs (m1, e1, fid1, now1) (List.mem_cons_self _ _)
      obtain ⟨i1, hstep⟩ :=
        postMood_key_filter db caller m1 e1 d fid1 now1 hv.1 hv.2 hd hlen
      have hlen2 : (((postMood db caller m1 e1 d fid1 now1).1).mood_entries.filter
          (moodKey caller d)).length ≤ 1 := by
        rw [hstep]
        simp
      have hrest : ∀ s2 ∈ rest, s2.1 ≠ "" ∧ s2.2.1 ≠ "" :=
        fun s2 hs2 => hsubs s2 (List.mem_cons_of_mem _ hs2)
      simpa [submitMoodSeq] using
        ih (postMood db caller m1 e1 d fid1 now1).1 hrest hlen2

/-- C3: for one user and one calendar date, after any sequence of valid mood
submissions ending in (m, e) the store holds exactly one mood row for that
(user, date) pair and its mood and emoji are those of the last submission —
the repeated submission overwrites rather than duplicates or errors —
provided the store initially respects UNIQUE(user_id, date). -/
theorem c3_mood_singleton_per_date (db : DB) (caller : Nat) (d : String)
    (subs : List (String × String × Nat × Nat)) (m e : String) (fid now : Nat)
    (hd : d ≠ "") (hm : m ≠ "") (he : e ≠ "")
    (hsubs : ∀ s ∈ subs, s.1 ≠ "" ∧ s.2.1 ≠ "")
    (hlen : (db.mood_entries.filter (moodKey caller d)).length ≤ 1) :
    ((submitMoodSeq db caller d (subs ++ [(m, e, fid, now)])).mood_entries.filter
        (moodKey caller d)).length = 1
    ∧ ((submitMoodSeq db caller d (subs ++ [(m, e, fid, now)])).mood_entries.filter
        (moodKey caller d)).map moodData = [(m, e)] := by
  obtain ⟨i, hi⟩ := submitMoodSeq_filter caller d m e fid now hd hm he subs db hsubs hlen
  rw [hi]
  exact ⟨rfl, by simp [moodData]⟩

/-- C3 witness: submitting happy then sad for 2024-01-01 leaves exactly one
row for that date, carrying sad. -/
theorem c3_mood_singleton_per_date_witness :
    ((submitMoodSeq emptyDB 1 "2024-01-01"
        [("happy", "😊", 1, 0), ("sad", "😢", 2, 5)]).mood_entries.filter
        (moodKey 1 "2024-01-01")).length = 1
    ∧ ((submitMoodSeq emptyDB 1 "2024-01-01"
        [("happy", "😊", 1, 0), ("sad", "😢", 2, 5)]).mood_entries.filter
        (moodKey 1 "2024-01-01")).map moodData = [("sad", "😢")] :=
  c3_mood_singleton_per_date emptyDB 1 "2024-01-01" [("happy", "😊", 1, 0)]
    "sad" "😢" 2 5 (by decide) (by decide) (by decide) (by decide) (by decide)

/-- A successful registration stores the bcrypt hash of the submitted
password, never the plaintext. -/
theorem registerHandler_created (db : DB) (email pw nm : String) (fid now : Nat)
    (u : UserRow)
    (h : (registerHandler db email pw nm fid now).2 = RegResult.created u) :
    u.password = hashPassword pw := by
  unfold registerHandler registerPhase1 registerPhase2 insertUser at h
  by_cases h1 : email = "" ∨ pw = ""
  · rw [if_pos h1] at h
    simp at h
  · rw [if_neg h1] at h
    by_cases h2 : pw.length < 6
    · rw [if_pos h2] at h
      simp at h
    · rw [if_neg h2] at h
      by_cases h3 : emailExists db email = true
      · simp only [h3, if_true] at h
        simp at h
      · simp only [h3, Bool.false_eq_true, if_false] at h
        simp only [RegResult.created.injEq] at h
        rw [← h]

/-- C8: the stored password of every successful registration is the one-way
hash, which is never equal to the submitted plaintext; and no response body
of registration, login, profile read/update or the user listing carries a
password field — their key sets exclude it and their contents are
independent of the stored password. -/
theorem c8_password_never_leaked :
    (∀ (db : DB) (email pw nm : String) (fid now : Nat) (u : UserRow),
        (registerHandler db email pw nm fid now).2 = RegResult.created u →
        u.password = hashPassword pw ∧ u.password ≠ pw)
    ∧ (∀ u : UserRow,
        "password" ∉ (registerResponseUser u).map Prod.fst
        ∧ "password" ∉ (loginResponseUser u).map Prod.fst
        ∧ "password" ∉ (profileResponse u).map Prod.fst
        ∧ "password" ∉ (usersListingRow u).map Prod.fst)
    ∧ (∀ (u : UserRow) (x : String),
        registerResponseUser { u with password := x } = registerResponseUser u
        ∧ loginResponseUser { u with password := x } = loginResponseUser u
        ∧ profileResponse { u with password := x } = profileResponse u
        ∧ usersListingRow { u with password := x } = usersListingRow u) := by
  refine ⟨?_, ?_, ?_⟩
  · intro db email pw nm fid now u h
    have hp := registerHandler_created db email pw nm fid now u h
    refine ⟨hp, ?_⟩
    rw [hp]
    intro hcontra
    have hlen := congrArg String.length hcontra
    rw [hashPassword, String.length_append] at hlen
    have h7 : ("$2b$10$" : String).length = 7 := by decide
    omega
  · intro u
    refine ⟨?_, ?_, ?_, ?_⟩
    · simp only [registerResponseUser, List.map_cons, List.map_nil]
      decide
    · simp only [loginResponseUser, List.map_cons, List.map_nil]
      decide
    · simp only [profileResponse, List.map_cons, List.map_nil]
      decide
    · simp only [usersListingRow, List.map_cons, List.map_nil]
      decide
  · intro u x
    exact ⟨rfl, rfl, rfl, rfl⟩

/-- C8 witness: registering a@x.com with password secret1 on the empty store
stores the hash of secret1, which differs from the plaintext. -/
theorem c8_password_never_leaked_witness :
    ({ id := 1, email := "a@x.com", password := hashPassword "secret1",
       name := "A", age := none, gender := none, bio := none,
       profile_complete := false, join_date := 0, created_at := 0,
       updated_at := 0 } : UserRow).password = hashPassword "secret1"
    ∧ ({ id := 1, email := "a@x.com", password := hashPassword "secret1",
         name := "A", age := none, gender := none, bio := none,
         profile_complete := false, join_date := 0, created_at := 0,
         updated_at := 0 } : UserRow).password ≠ "secret1" :=
  c8_password_never_leaked.1 emptyDB "a@x.com" "secret1" "A" 1 0
    { id := 1, email := "a@x.com", password := hashPassword "secret1",
      name := "A", age := none, gender := none, bio := none,
      profile_complete := false, join_date := 0, created_at := 0,
      updated_at := 0 } (by decide)

/-- C9: the stats operation leaves the store unchanged and, when the caller
exists and joined no later than the current time, answers with the caller's
journal, mood and gratitude entry counts together with daysActive equal to
the inclusive day-count between the join date and the current time. -/
theorem c9_stats_read_only_projection (db : DB) (caller now : Nat) (u : UserRow)
    (hfind : db.users.find? (fun x => x.id == caller) = some u)
    (hjoin : u.join_date ≤ now) :
    (statsHandler db caller now).1 = db
    ∧ (statsHandler db caller now).2 = Except.ok
        { journalCount := (db.journal_entries.filter (fun r => r.user_id == caller)).length,
          moodCount := (db.mood_entries.filter (fun r => r.user_id == caller)).length,
          gratitudeCount := (db.gratitude_entries.filter (fun r => r.user_id == caller)).length,
          daysActive := (specDaysActive u.join_date now : Int) } := by
  unfold statsHandler
  rw [hfind]
  refine ⟨rfl, ?_⟩
  simp only [Except.ok.injEq, StatsResponse.mk.injEq, true_and, and_true]
  rw [specDaysActive, Int.fdiv_eq_ediv _ (by decide)]
  have hsub : ((now : Int) - (u.join_date : Int)) = ((now - u.join_date : Nat) : Int) := by
    omega
  rw [hsub]
  push_cast
  rfl

/-- C9 witness: on a store with one user (id 1, joined at 0) owning one
journal entry, the stats call at time 100 leaves the store unchanged and
reports counts 1, 0, 0 with one active day. -/
theorem c9_stats_read_only_projection_witness :
    (statsHandler witnessDB 1 100).1 = witnessDB
    ∧ (statsHandler witnessDB 1 100).2 = Except.ok
        { journalCount := 1, moodCount := 0, gratitudeCount := 0,
          daysActive := 1 } :=
  c9_stats_read_only_projection witnessDB 1 100
    { id := 1, email := "a@x.com", password := hashPassword "secret1",
      name := "A", age := none, gender := none, bio := none,
      profile_complete := false, join_date := 0, created_at := 0,
      updated_at := 0 } (by decide) (by decide)

/-- C10: a profile update touches only the caller's row, and there only the
fields name, age, gender, bio, profile_complete and updated_at: every other
user's row is returned unchanged, and the caller's id, email, stored
password, join date and creation time are preserved. -/
theorem c10_profile_update_frame (db : DB) (caller : Nat) (name : String)
    (age : Nat) (gender bio : String) (now : Nat) :
    List.Forall₂ (fun u u2 =>
        (u.id ≠ caller → u2 = u)
        ∧ u2.id = u.id ∧ u2.email = u.email ∧ u2.password = u.password
        ∧ u2.join_date = u.join_date ∧ u2.created_at = u.created_at)
      db.users
      ((updateProfileHandler db caller name age gender bio now).1).users := by
  by_cases hval : name = "" ∨ age = 0 ∨ gender = ""
  · unfold updateProfileHandler
    rw [if_pos hval]
    exact List.forall₂_same.mpr (fun a _ => ⟨fun _ => rfl, rfl, rfl, rfl, rfl, rfl⟩)
  · unfold updateProfileHandler
    rw [if_neg hval]
    cases hfil : db.users.filter (fun u => u.id == caller) with
    | nil =>
        exact List.forall₂_same.mpr (fun a _ => ⟨fun _ => rfl, rfl, rfl, rfl, rfl, rfl⟩)
    | cons u0 rest =>
        rw [List.forall₂_map_right_iff]
        refine List.forall₂_same.mpr ?_
        intro x _
        by_cases hk : (x.id == caller) = true
        · refine ⟨fun hne => absurd (by simpa using hk) hne, ?_, ?_, ?_, ?_, ?_⟩
            <;> simp [hk]
        · refine ⟨fun _ => ?_, ?_, ?_, ?_, ?_, ?_⟩ <;> simp [hk]

/-- C10 witness: user 1 updates their profile on the single-user store; the
frame property instantiated there. -/
theorem c10_profile_update_frame_witness :
    List.Forall₂ (fun u u2 =>
        (u.id ≠ 1 → u2 = u)
        ∧ u2.id = u.id ∧ u2.email = u.email ∧ u2.password = u.password
        ∧ u2.join_date = u.join_date ∧ u2.created_at = u.created_at)
      witnessDB.users
      ((updateProfileHandler witnessDB 1 "Ann" 30 "female" "hi" 9).1).users :=
  c10_profile_update_frame witnessDB 1 "Ann" 30 "female" "hi" 9

end Mindful
